import Mathlib

/-!
Verification of the order-reconciliation webhook handler
(`checkout/webhook_handler.py`, class `StripeWH_Handler`).

The handler is embedded shallowly: the mutable Django stores (orders,
line items, user profiles, product catalog, outbox of confirmation
emails, and the wall clock advanced by `time.sleep(1)`) become an
explicit `DB` state threaded through pure functions, and the fallible
external calls (order creation, line-item creation, email delivery)
and the per-attempt visibility of concurrently written orders are
injected through an `Env` record.  Machine-level detail that the
handler never observes (template text, HTTP transport) is dropped;
everything the handler branches on is kept.
-/

namespace Checkout

/-! ### Characters used by the JSON decoder model
Written via code points so the source text carries no brace literals. -/

def lbraceChar : Char := Char.ofNat 123

def rbraceChar : Char := Char.ofNat 125

def lbrackChar : Char := Char.ofNat 91

def rbrackChar : Char := Char.ofNat 93

def quoteChar : Char := Char.ofNat 34

def colonChar : Char := Char.ofNat 58

def commaChar : Char := Char.ofNat 44

def backslashChar : Char := Char.ofNat 92

/-- JSON values as produced by the standard-library decoder invoked at
webhook_handler.py line 149 (`json.loads(bag)`).  A number without
fraction and exponent decodes to a Python int (`num`); any other
number decodes to a float, kept here with its exact decimal value
(`flt`) — the handler never reads the value of a non-integer number,
so the float rounding of the real decoder is unobservable.  The
decoder also accepts the non-standard constants NaN, Infinity and
-Infinity, decoding them to non-finite floats (`nan`, `inf`). -/
inductive Json where
  | null : Json
  | bool : Bool → Json
  | num : Int → Json
  | flt : ℚ → Json
  | nan : Json
  | inf : Bool → Json
  | str : String → Json
  | arr : List Json → Json
  | obj : List (String × Json) → Json
  deriving Repr

def isWsChar (c : Char) : Bool :=
  c == ' ' || c == '\t' || c == '\n' || c == '\r'

def skipWs : List Char → List Char
  | [] => []
  | c :: cs => if isWsChar c then skipWs cs else c :: cs

def hexVal (c : Char) : Option Nat :=
  if c.isDigit then some (c.toNat - 48)
  else if 'a' ≤ c && c ≤ 'f' then some (c.toNat - 87)
  else if 'A' ≤ c && c ≤ 'F' then some (c.toNat - 55)
  else none

/-- Body of a JSON string after the opening quote, with the escape
sequences of the JSON grammar; the decoder is strict, so an unescaped
control character is rejected.  A high/low pair of \u escapes combines
into one scalar as in the real decoder.  Decoded text is modelled over
Unicode scalar values: an unpaired surrogate, which the real decoder
would keep inside the str object, has no scalar and decodes to the
null character here (no cart snapshot contains one). -/
def parseStrBody : Nat → List Char → Option (String × List Char)
  | 0, _ => none
  | Nat.succ _, [] => none
  | Nat.succ fuel, c :: cs =>
    if c == quoteChar then some ("", cs)
    else if c == backslashChar then
      match cs with
      | [] => none
      | e :: cs2 =>
        if e == quoteChar || e == backslashChar || e == '/' then
          match parseStrBody fuel cs2 with
          | some (s, rest) => some (e.toString ++ s, rest)
          | none => none
        else if e == 'b' then
          match parseStrBody fuel cs2 with
          | some (s, rest) => some ((Char.ofNat 8).toString ++ s, rest)
          | none => none
        else if e == 'f' then
          match parseStrBody fuel cs2 with
          | some (s, rest) => some ((Char.ofNat 12).toString ++ s, rest)
          | none => none
        else if e == 'n' then
          match parseStrBody fuel cs2 with
          | some (s, rest) => some ((Char.ofNat 10).toString ++ s, rest)
          | none => none
        else if e == 'r' then
          match parseStrBody fuel cs2 with
          | some (s, rest) => some ((Char.ofNat 13).toString ++ s, rest)
          | none => none
        else if e == 't' then
          match parseStrBody fuel cs2 with
          | some (s, rest) => some ((Char.ofNat 9).toString ++ s, rest)
          | none => none
        else if e == 'u' then
          match cs2 with
          | h1 :: h2 :: h3 :: h4 :: cs3 =>
            match hexVal h1, hexVal h2, hexVal h3, hexVal h4 with
            | some a, some b, some c2, some d =>
              let code := ((a * 16 + b) * 16 + c2) * 16 + d
              if 55296 ≤ code && code ≤ 56319 then
                match cs3 with
                | e2 :: u2 :: g1 :: g2 :: g3 :: g4 :: cs4 =>
                  if e2 == backslashChar && u2 == 'u' then
                    match hexVal g1, hexVal g2, hexVal g3, hexVal g4 with
                    | some a2, some b2, some c3, some d2 =>
                      let lo := ((a2 * 16 + b2) * 16 + c3) * 16 + d2
                      if 56320 ≤ lo && lo ≤ 57343 then
                        match parseStrBody fuel cs4 with
                        | some (s, rest) =>
                          some ((Char.ofNat
                            (65536 + (code - 55296) * 1024 + (lo - 56320))).toString ++ s, rest)
                        | none => none
                      else
                        match parseStrBody fuel cs3 with
                        | some (s, rest) => some ((Char.ofNat code).toString ++ s, rest)
                        | none => none
                    | _, _, _, _ =>
                      match parseStrBody fuel cs3 with
                      | some (s, rest) => some ((Char.ofNat code).toString ++ s, rest)
                      | none => none
                  else
                    match parseStrBody fuel cs3 with
                    | some (s, rest) => some ((Char.ofNat code).toString ++ s, rest)
                    | none => none
                | _ =>
                  match parseStrBody fuel cs3 with
                  | some (s, rest) => some ((Char.ofNat code).toString ++ s, rest)
                  | none => none
              else
                match parseStrBody fuel cs3 with
                | some (s, rest) => some ((Char.ofNat code).toString ++ s, rest)
                | none => none
            | _, _, _, _ => none
          | _ => none
        else none
    else if c.toNat < 32 then none
    else
      match parseStrBody fuel cs with
      | some (s, rest) => some (c.toString ++ s, rest)
      | none => none

/-- String body parse from the character after the opening quote; the
fuel bound is one more than the length, and every step consumes at
least one character, so the bound is never the reason a string is
rejected. -/
def parseStr (cs : List Char) : Option (String × List Char) :=
  parseStrBody (cs.length + 1) cs

def parseDigitsAux : List Char → Nat → Nat × List Char
  | [], acc => (acc, [])
  | c :: cs, acc =>
    if c.isDigit then parseDigitsAux cs (acc * 10 + (c.toNat - 48)) else (acc, c :: cs)

/-- Digit run together with its length, for fraction parts. -/
def parseDigitsCnt : List Char → Nat → Nat → Nat × Nat × List Char
  | [], acc, cnt => (acc, cnt, [])
  | c :: cs, acc, cnt =>
    if c.isDigit then parseDigitsCnt cs (acc * 10 + (c.toNat - 48)) (cnt + 1)
    else (acc, cnt, c :: cs)

/-- Fraction part of a JSON number: a dot followed by at least one
digit; otherwise nothing is consumed, and the number token stops
before the dot exactly as the number regex of the real decoder does.
Returns the fraction value, the digit count and the rest. -/
def parseFrac : List Char → Nat × Nat × List Char
  | c :: d :: cs =>
    if c == '.' && d.isDigit then parseDigitsCnt (d :: cs) 0 0
    else (0, 0, c :: d :: cs)
  | cs => (0, 0, cs)

/-- Exponent part of a JSON number: e or E, an optional sign, at least
one digit; otherwise nothing is consumed.  Returns the exponent, a
presence flag and the rest. -/
def parseExp : List Char → Int × Bool × List Char
  | c :: cs =>
    if c == 'e' || c == 'E' then
      match cs with
      | s :: cs2 =>
        if s == '+' then
          match cs2 with
          | d :: _ =>
            if d.isDigit then
              let r := parseDigitsAux cs2 0
              ((r.1 : Int), true, r.2)
            else (0, false, c :: cs)
          | [] => (0, false, c :: cs)
        else if s == '-' then
          match cs2 with
          | d :: _ =>
            if d.isDigit then
              let r := parseDigitsAux cs2 0
              (-(r.1 : Int), true, r.2)
            else (0, false, c :: cs)
          | [] => (0, false, c :: cs)
        else if s.isDigit then
          let r := parseDigitsAux cs 0
          ((r.1 : Int), true, r.2)
        else (0, false, c :: cs)
      | [] => (0, false, c :: cs)
    else (0, false, c :: cs)
  | [] => (0, false, [])

/-- Exact decimal value of a JSON float literal with sign, integer
part `i`, fraction value `f` of `k` digits and exponent `e`. -/
def floatVal (neg : Bool) (i f k : Nat) (e : Int) : ℚ :=
  let m : Int := (if neg then -1 else 1) * ((i * 10 ^ k + f : Nat) : Int)
  if 0 ≤ e then mkRat (m * (10 ^ e.toNat : Nat)) (10 ^ k)
  else mkRat m (10 ^ k * 10 ^ e.natAbs)

/-- Fraction and exponent of a number whose sign and integer part are
already read: without either the token is a Python int, with at least
one of them it is a float. -/
def parseNumTail (neg : Bool) (i : Nat) (cs : List Char) : Option (Json × List Char) :=
  let fr := parseFrac cs
  let ex := parseExp fr.2.2
  if fr.2.1 == 0 && ex.2.1 == false then
    some (Json.num (if neg then -(i : Int) else (i : Int)), ex.2.2)
  else some (Json.flt (floatVal neg i fr.1 fr.2.1 ex.1), ex.2.2)

/-- JSON number grammar as the number regex of the real decoder
implements it: optional minus, an integer part that is a lone 0 or
starts with a nonzero digit (so 007 is not a number token), optional
fraction, optional exponent. -/
def parseNum : List Char → Option (Json × List Char)
  | [] => none
  | c :: cs =>
    if c == '-' then
      match cs with
      | c2 :: cs2 =>
        if c2 == '0' then parseNumTail true 0 cs2
        else if c2.isDigit then
          let r := parseDigitsAux cs2 (c2.toNat - 48)
          parseNumTail true r.1 r.2
        else none
      | [] => none
    else if c == '0' then parseNumTail false 0 cs
    else if c.isDigit then
      let r := parseDigitsAux cs (c.toNat - 48)
      parseNumTail false r.1 r.2
    else none

def litTrue : List Char := ['t', 'r', 'u', 'e']

def litFalse : List Char := ['f', 'a', 'l', 's', 'e']

def litNull : List Char := ['n', 'u', 'l', 'l']

def litNaN : List Char := ['N', 'a', 'N']

def litInf : List Char := ['I', 'n', 'f', 'i', 'n', 'i', 't', 'y']

def litNegInf : List Char := ['-', 'I', 'n', 'f', 'i', 'n', 'i', 't', 'y']

def dropLit (lit : List Char) (cs : List Char) : Option (List Char) :=
  if lit.isPrefixOf cs then some (cs.drop lit.length) else none

/-- Insertion into an association list with the Python dict override
semantics: a repeated key keeps its original position and takes the new
value. -/
def insertKV (kvs : List (String × Json)) (k : String) (v : Json) : List (String × Json) :=
  match kvs with
  | [] => [(k, v)]
  | (k2, v2) :: rest =>
    if k2 == k then (k2, v) :: rest else (k2, v2) :: insertKV rest k v

mutual

def parseValue : Nat → List Char → Option (Json × List Char)
  | 0, _ => none
  | Nat.succ fuel, cs =>
    match skipWs cs with
    | [] => none
    | c :: rest =>
      if c == lbraceChar then parseObjBody fuel rest []
      else if c == lbrackChar then parseArrBody fuel rest
      else if c == quoteChar then
        match parseStr rest with
        | some (s, r) => some (Json.str s, r)
        | none => none
      else
        match dropLit litTrue (c :: rest) with
        | some r => some (Json.bool true, r)
        | none =>
          match dropLit litFalse (c :: rest) with
          | some r => some (Json.bool false, r)
          | none =>
            match dropLit litNull (c :: rest) with
            | some r => some (Json.null, r)
            | none =>
              match dropLit litNaN (c :: rest) with
              | some r => some (Json.nan, r)
              | none =>
                match dropLit litInf (c :: rest) with
                | some r => some (Json.inf false, r)
                | none =>
                  match dropLit litNegInf (c :: rest) with
                  | some r => some (Json.inf true, r)
                  | none => parseNum (c :: rest)

def parseObjBody : Nat → List Char → List (String × Json) → Option (Json × List Char)
  | 0, _, _ => none
  | Nat.succ fuel, cs, acc =>
    match skipWs cs with
    | [] => none
    | c :: rest =>
      if c == rbraceChar then
        if acc.isEmpty then some (Json.obj acc, rest) else none
      else if c == quoteChar then
        match parseStr rest with
        | none => none
        | some (k, r1) =>
          match skipWs r1 with
          | c2 :: r2 =>
            if c2 == colonChar then
              match parseValue fuel r2 with
              | none => none
              | some (v, r3) =>
                match skipWs r3 with
                | c3 :: r4 =>
                  if c3 == commaChar then parseObjBody fuel r4 (insertKV acc k v)
                  else if c3 == rbraceChar then some (Json.obj (insertKV acc k v), r4)
                  else none
                | [] => none
            else none
          | [] => none
      else none

def parseArrBody : Nat → List Char → Option (Json × List Char)
  | 0, _ => none
  | Nat.succ fuel, cs =>
    match skipWs cs with
    | c :: rest =>
      if c == rbrackChar then some (Json.arr [], rest)
      else
        match parseElems fuel (c :: rest) with
        | some (l, r) => some (Json.arr l, r)
        | none => none
    | [] => none

def parseElems : Nat → List Char → Option (List Json × List Char)
  | 0, _ => none
  | Nat.succ fuel, cs =>
    match parseValue fuel cs with
    | none => none
    | some (v, r) =>
      match skipWs r with
      | c :: r2 =>
        if c == commaChar then
          match parseElems fuel r2 with
          | some (l, r3) => some (v :: l, r3)
          | none => none
        else if c == rbrackChar then some ([v], r2)
        else none
      | [] => none

end

/-- Model of `json.loads` as used at webhook_handler.py line 149:
`none` where the decoder raises `JSONDecodeError`. -/
def json_loads (s : String) : Option Json :=
  match parseValue (2 * s.data.length + 2) s.data with
  | some (j, rest) => if (skipWs rest).isEmpty then some j else none
  | none => none

/-- Python dict `get`: the value stored under a key, if any. -/
def jsonGet (kvs : List (String × Json)) (k : String) : Option Json :=
  (kvs.find? (fun p => p.1 == k)).map Prod.snd

/-! ### Data model

The Django records touched by the handler, with exactly the fields the
handler reads or writes. -/

/-- Address object inside `intent.shipping` (lines 71-77).  `none`
covers both a missing key and an explicit `None` value: the handler
only ever reads the fields through `.get(field, "") or fallback`,
which sends both to the fallback. -/
structure Address where
  line1 : Option String
  line2 : Option String
  city : Option String
  state : Option String
  postal_code : Option String
  country : Option String
  deriving DecidableEq, Repr

def emptyAddress : Address :=
  { line1 := none, line2 := none, city := none, state := none
    postal_code := none, country := none }

/-- Billing details object (`charge.billing_details` or
`intent.billing_details`); the handler reads only `.email`. -/
structure BillingDetails where
  email : Option String
  deriving DecidableEq, Repr

structure ShippingDetails where
  name : Option String
  phone : Option String
  address : Option Address
  deriving DecidableEq, Repr

/-- First element of `intent.charges.data`; the handler reads
`billing_details` and `amount` (line 63-65). -/
structure Charge where
  billing_details : Option BillingDetails
  amount : Int
  deriving DecidableEq, Repr

/-- The `intent.metadata` map (lines 54-58).  Stripe metadata values
are strings; a missing key is `none`. -/
structure Metadata where
  bag : Option String
  save_info : Option String
  username : Option String
  email : Option String
  deriving DecidableEq, Repr

/-- The `event.data.object` payment intent, with the attributes the
handler reads (lines 50-72). -/
structure Intent where
  id : Option String
  metadata : Metadata
  charges : Option (List Charge)
  billing_details : Option BillingDetails
  amount_received : Int
  shipping : Option ShippingDetails
  deriving DecidableEq, Repr

structure Event where
  type : String
  intent : Intent
  deriving DecidableEq, Repr

/-- Stored profile row (profiles.models.UserProfile) with the default
address fields written at lines 85-91 plus the account email read at
line 23. -/
structure UserProfile where
  username : String
  userEmail : String
  default_phone_number : String
  default_country : String
  default_postcode : String
  default_town_or_city : String
  default_street_address1 : String
  default_street_address2 : String
  default_county : String
  deriving DecidableEq, Repr

/-- Stored order row (checkout.models.Order) with the fields the
handler looks up (lines 102-115) and creates (lines 131-145). -/
structure Order where
  oid : Nat
  full_name : String
  user_profile : Option UserProfile
  email : String
  phone_number : String
  country : String
  postcode : String
  town_or_city : String
  street_address1 : String
  street_address2 : String
  county : String
  grand_total : ℚ
  original_bag : String
  stripe_pid : Option String
  deriving DecidableEq, Repr

/-- Stored line-item row (checkout.models.OrderLineItem) as created at
lines 157-169. -/
structure OrderLineItem where
  order_id : Nat
  product_id : String
  quantity : Int
  product_size : Option String
  deriving DecidableEq, Repr

/-- The mutable world: the Django stores, the outbox of confirmation
emails actually delivered, and a clock counting `time.sleep(1)` calls. -/
structure DB where
  orders : List Order
  lineItems : List OrderLineItem
  profiles : List UserProfile
  products : List String
  nextOrderId : Nat
  sentEmails : List String
  clock : Nat
  deriving DecidableEq, Repr

/-- Behaviour of the external collaborators during one handler run:
`lateAt k` lists orders committed by the concurrent checkout writer
that are visible at lookup attempt `k` (on top of the local store);
`createOrderOk` and `lineItemOk` say whether the store accepts the
`Order.objects.create` and each `OrderLineItem.objects.create`;
`sendOk` says whether template rendering plus `send_mail` succeed. -/
structure Env where
  lateAt : Nat → List Order
  createOrderOk : Bool
  lineItemOk : OrderLineItem → Bool
  sendOk : Bool

/-! ### Field extraction and normalization (lines 50-77) -/

/-- Python `x or d` on an optional string: both a missing value and the
empty string fall back to `d`. -/
def pyOr (o : Option String) (d : String) : String :=
  match o with
  | some s => if s = "" then d else s
  | none => d

/-- Python `x or None` on an optional string: the empty string becomes
`none`. -/
def pyOrNone (o : Option String) : Option String :=
  match o with
  | some s => if s = "" then none else some s
  | none => none

/-- Lines 74-77: every address value equal to the empty string is
replaced by `None`. -/
def cleanAddress (a : Address) : Address :=
  { line1 := pyOrNone a.line1, line2 := pyOrNone a.line2
    city := pyOrNone a.city, state := pyOrNone a.state
    postal_code := pyOrNone a.postal_code, country := pyOrNone a.country }

def jsonEmptyObjStr : String := "\x7b\x7d"

/-- The normalized view of the event computed once at lines 50-77 and
used by every later step. -/
structure Norm where
  pid : Option String
  bag : String
  save_info : Bool
  username : String
  email_to_send : Option String
  billing_email : String
  grand_total : ℚ
  full_name : String
  phone : Option String
  address : Address
  deriving Repr

/-- Lines 50-77 of handle_payment_intent_succeeded.  The amount is in
minor units; `round(amount / 100, 2)` is the exact rational
`mkRat amount 100` (the quotient has at most two decimal places, so
rounding is the identity on it). -/
def normalize (intent : Intent) : Norm :=
  let md := intent.metadata
  let billingAndTotal : Option BillingDetails × ℚ :=
    match intent.charges with
    | some (c :: _) => (c.billing_details, mkRat c.amount 100)
    | _ => (intent.billing_details, mkRat intent.amount_received 100)
  { pid := intent.id
    bag := pyOr md.bag jsonEmptyObjStr
    save_info := md.save_info == some "true"
    username := pyOr md.username "AnonymousUser"
    email_to_send := pyOrNone md.email
    billing_email := pyOr (billingAndTotal.1.bind BillingDetails.email) ""
    grand_total := billingAndTotal.2
    full_name := pyOr (intent.shipping.bind ShippingDetails.name) ""
    phone := intent.shipping.bind ShippingDetails.phone
    address := cleanAddress ((intent.shipping.bind ShippingDetails.address).getD emptyAddress) }

/-! ### Profile update (lines 79-94) -/

/-- Lines 85-91: each default field takes the event value when that
value is non-empty, otherwise it keeps the stored value (Python
`value or profile.field`). -/
def updateProfileFields (n : Norm) (p : UserProfile) : UserProfile :=
  { p with
    default_phone_number := pyOr n.phone p.default_phone_number
    default_country := pyOr n.address.country p.default_country
    default_postcode := pyOr n.address.postal_code p.default_postcode
    default_town_or_city := pyOr n.address.city p.default_town_or_city
    default_street_address1 := pyOr n.address.line1 p.default_street_address1
    default_street_address2 := pyOr n.address.line2 p.default_street_address2
    default_county := pyOr n.address.state p.default_county }

/-- Lines 79-94: look the profile up by username (usernames are unique
in Django), update and save it when `save_info` is set, treat
`UserProfile.DoesNotExist` as no profile.  Returns the `profile`
variable and the store after the optional `profile.save()`. -/
def profileStep (n : Norm) (db : DB) : Option UserProfile × DB :=
  if n.username = "AnonymousUser" then (none, db)
  else
    match db.profiles.find? (fun q => q.username == n.username) with
    | none => (none, db)
    | some p =>
      if n.save_info then
        let p2 := updateProfileFields n p
        (some p2,
         { db with profiles := db.profiles.map (fun q => if q.username == n.username then p2 else q) })
      else (some p, db)

/-! ### Idempotency lookup (lines 96-120) -/

/-- Case-insensitive string comparison, as the `__iexact` lookups at
lines 103-111 (ASCII case folding). -/
def lowerChar (c : Char) : Char :=
  if c.isUpper then Char.ofNat (c.toNat + 32) else c

def ieq (s t : String) : Bool :=
  s.data.map lowerChar == t.data.map lowerChar

/-- The composite-key match of `Order.objects.get` at lines 102-115:
`__iexact` on the nine text fields, exact equality on the grand total,
the original serialized bag and the processor transaction id. -/
def orderMatches (n : Norm) (o : Order) : Bool :=
  ieq o.full_name n.full_name &&
  ieq o.email n.billing_email &&
  ieq o.phone_number (pyOr n.phone "") &&
  ieq o.country (pyOr n.address.country "") &&
  ieq o.postcode (pyOr n.address.postal_code "") &&
  ieq o.town_or_city (pyOr n.address.city "") &&
  ieq o.street_address1 (pyOr n.address.line1 "") &&
  ieq o.street_address2 (pyOr n.address.line2 "") &&
  ieq o.county (pyOr n.address.state "") &&
  o.grand_total == n.grand_total &&
  o.original_bag == n.bag &&
  o.stripe_pid == n.pid

/-- The retry loop at lines 99-120: up to five `Order.objects.get`
attempts; after every miss the handler increments `attempt` and calls
`time.sleep(1)` (also after the fifth miss).  Attempt `k` sees the
local store plus whatever the concurrent writer has made visible by
then (`lateAt k`).  Returns the order found, if any, and the number of
sleeps performed. -/
def findOrderLoop (lateAt : Nat → List Order) (orders : List Order) (n : Norm) :
    Nat → Nat → Option Order × Nat
  | _, 0 => (none, 0)
  | attempt, Nat.succ fuel =>
    match (orders ++ lateAt attempt).find? (orderMatches n) with
    | some o => (some o, 0)
    | none =>
      let r := findOrderLoop lateAt orders n (attempt + 1) fuel
      (r.1, r.2 + 1)

/-! ### Confirmation email (lines 20-39) -/

/-- Line 23: `order.email or email_to_send or
getattr(order.user_profile.user, "email", None)`.  When the order has
no linked profile the attribute chain raises (`None` has no attribute
`user`); the error value stands for that exception, which the
surrounding `try` swallows. -/
def confirmationRecipient (o : Order) (email_to_send : Option String) : Except Unit String :=
  if o.email = "" then
    match email_to_send with
    | some s =>
      if s = "" then
        match o.user_profile with
        | some p => Except.ok p.userEmail
        | none => Except.error ()
      else Except.ok s
    | none =>
      match o.user_profile with
      | some p => Except.ok p.userEmail
      | none => Except.error ()
  else Except.ok o.email

/-- Lines 20-39, `_send_confirmation_email`: compute the recipient,
render and send; any exception is caught and only printed, so the
store of delivered emails grows exactly when nothing raised. -/
def send_confirmation_email (sendOk : Bool) (o : Order) (email_to_send : Option String)
    (db : DB) : DB :=
  match confirmationRecipient o email_to_send with
  | Except.error _ => db
  | Except.ok addr =>
    if sendOk then { db with sentEmails := db.sentEmails ++ [addr] } else db

/-! ### Creation path (lines 129-186) -/

/-- The new order row built at lines 131-145 from the normalized
fields, the `profile` variable and a fresh id. -/
def mkOrder (n : Norm) (profile : Option UserProfile) (oid : Nat) : Order :=
  { oid := oid
    full_name := n.full_name
    user_profile := profile
    email := n.billing_email
    phone_number := pyOr n.phone ""
    country := pyOr n.address.country ""
    postcode := pyOr n.address.postal_code ""
    town_or_city := pyOr n.address.city ""
    street_address1 := pyOr n.address.line1 ""
    street_address2 := pyOr n.address.line2 ""
    county := pyOr n.address.state ""
    grand_total := n.grand_total
    original_bag := n.bag
    stripe_pid := n.pid }

def itemsBySizeKey : String := "items_by_size"

def pyIntDigitsAux : List Char → Nat → Option Nat
  | [], acc => some acc
  | c :: cs, acc =>
    if c.isDigit then pyIntDigitsAux cs (acc * 10 + (c.toNat - 48))
    else if c == '_' then
      match cs with
      | d :: cs2 =>
        if d.isDigit then pyIntDigitsAux cs2 (acc * 10 + (d.toNat - 48)) else none
      | [] => none
    else none

def pyIntDigits : List Char → Option Nat
  | [] => none
  | c :: cs => if c.isDigit then pyIntDigitsAux cs (c.toNat - 48) else none

def isPyWsChar (c : Char) : Bool :=
  isWsChar c || c == Char.ofNat 11 || c == Char.ofNat 12

/-- Python int() on a decoded JSON string, as the integer field of the
store calls it when a string quantity is saved: optional surrounding
whitespace, an optional sign, then decimal digits with single
underscores allowed between digits (ASCII; the cart snapshots carry no
exotic digits).  `none` where int() raises ValueError. -/
def pyIntOfString (s : String) : Option Int :=
  match ((s.data.dropWhile isPyWsChar).reverse.dropWhile isPyWsChar).reverse with
  | [] => none
  | c :: cs =>
    if c == '-' then (pyIntDigits cs).map (fun n => -(n : Int))
    else if c == '+' then (pyIntDigits cs).map (fun n => (n : Int))
    else (pyIntDigits (c :: cs)).map (fun n => (n : Int))

/-- Quantity the integer field of the store ends up saving for a
decoded size value: the integer itself, a bool as 0 or 1 (a bool is an
int to Python), a float truncated toward zero and a numeric string
converted, both through the int() call of the field; `none` where
int() raises (null, NaN, Infinity, non-numeric strings, arrays,
objects), which the creation `try` turns into a failure — the inner
`except` is scoped to `Product.DoesNotExist` and does not catch it. -/
def djangoIntOfJson : Json → Option Int
  | Json.num q => some q
  | Json.bool b => some (if b then 1 else 0)
  | Json.flt q => some (q.num.tdiv (q.den : Int))
  | Json.str sv => pyIntOfString sv
  | _ => none

/-- Lines 163-169: one `OrderLineItem.objects.create` per size/quantity
pair of `item_data.get("items_by_size", Dict())`, with the quantity
coerced by the integer field as in `djangoIntOfJson`; a quantity the
field cannot coerce makes the create raise. -/
def sizeItems (ok : OrderLineItem → Bool) (oid : Nat) (item_id : String) :
    List (String × Json) → Except Unit (List OrderLineItem)
  | [] => Except.ok []
  | (size, v) :: rest =>
    match djangoIntOfJson v with
    | some qv =>
      if ok { order_id := oid, product_id := item_id, quantity := qv
              product_size := some size } then
        match sizeItems ok oid item_id rest with
        | Except.ok lis =>
          Except.ok ({ order_id := oid, product_id := item_id, quantity := qv
                       product_size := some size } :: lis)
        | Except.error e => Except.error e
      else Except.error ()
    | none => Except.error ()

/-- Lines 154-171, the body of the per-item loop.  The product lookup
comes first: `Product.DoesNotExist` skips the whole entry (line 170).
With the product present, an integer (or boolean, `isinstance(x, int)`)
value makes one line item with no size; a dict value iterates
`items_by_size`; any other value raises (`item_data.get` on a
non-dict), escaping to the outer `except`. -/
def lineItemsForEntry (ok : OrderLineItem → Bool) (products : List String) (oid : Nat)
    (item_id : String) (item_data : Json) : Except Unit (List OrderLineItem) :=
  if products.contains item_id then
    match item_data with
    | Json.num q =>
      if ok { order_id := oid, product_id := item_id, quantity := q, product_size := none } then
        Except.ok [{ order_id := oid, product_id := item_id, quantity := q
                     product_size := none }]
      else Except.error ()
    | Json.bool b =>
      if ok { order_id := oid, product_id := item_id, quantity := if b then 1 else 0
              product_size := none } then
        Except.ok [{ order_id := oid, product_id := item_id, quantity := if b then 1 else 0
                     product_size := none }]
      else Except.error ()
    | Json.obj kvs =>
      match jsonGet kvs itemsBySizeKey with
      | some (Json.obj pairs) => sizeItems ok oid item_id pairs
      | some _ => Except.error ()
      | none => Except.ok []
    | _ => Except.error ()
  else Except.ok []

/-- Line 153: iteration over `bag_data.items()` in insertion order. -/
def entryLoop (ok : OrderLineItem → Bool) (products : List String) (oid : Nat) :
    List (String × Json) → Except Unit (List OrderLineItem)
  | [] => Except.ok []
  | (item_id, item_data) :: rest =>
    match lineItemsForEntry ok products oid item_id item_data with
    | Except.error e => Except.error e
    | Except.ok lis =>
      match entryLoop ok products oid rest with
      | Except.ok more => Except.ok (lis ++ more)
      | Except.error e => Except.error e

/-- Lines 147-171: parse the bag (a `JSONDecodeError` yields the empty
dict, so no line items), then run the per-item loop.  A bag that is
valid JSON but not an object raises at `bag_data.items()`, which the
outer `except` turns into a creation failure. -/
def lineItemPhase (ok : OrderLineItem → Bool) (products : List String) (oid : Nat)
    (bag : String) : Except Unit (List OrderLineItem) :=
  match json_loads bag with
  | none => Except.ok []
  | some (Json.obj kvs) => entryLoop ok products oid kvs
  | some _ => Except.error ()

/-- HTTP-level outcomes of handle_payment_intent_succeeded: status 200
with the verified message (line 124), status 200 with the created
message (line 183), status 500 (line 176). -/
inductive Outcome where
  | alreadyRecorded : Outcome
  | created : Outcome
  | creationFailed : Outcome
  deriving DecidableEq, Repr

/-- Lines 129-186: the `try` block creating the order and its line
items.  If `Order.objects.create` itself raises, `order` is still
`None` and nothing is deleted; if anything later raises, the created
order is deleted (a Django cascade also removing its line items)
before the 500 response.  On success the confirmation email is
attempted with the metadata override address. -/
def creationStep (env : Env) (n : Norm) (profile : Option UserProfile) (db : DB) :
    Outcome × DB :=
  if env.createOrderOk then
    match lineItemPhase env.lineItemOk db.products db.nextOrderId n.bag with
    | Except.error _ =>
      (Outcome.creationFailed, { db with nextOrderId := db.nextOrderId + 1 })
    | Except.ok lis =>
      (Outcome.created,
       send_confirmation_email env.sendOk (mkOrder n profile db.nextOrderId) n.email_to_send
         { db with orders := db.orders ++ [mkOrder n profile db.nextOrderId]
                   nextOrderId := db.nextOrderId + 1
                   lineItems := db.lineItems ++ lis })
  else (Outcome.creationFailed, db)

/-- Lines 48-186, `handle_payment_intent_succeeded`: normalize the
event, update the profile when asked (lines 79-94 run before the
lookup), look for the order with the bounded retry, and either confirm
(lines 122-127, email sent without the override address) or create
(lines 129-186).  The sleeps of the retry loop advance the clock. -/
def handle_payment_intent_succeeded (env : Env) (event : Event) (db : DB) : Outcome × DB :=
  match findOrderLoop env.lateAt (profileStep (normalize event.intent) db).2.orders
      (normalize event.intent) 1 5 with
  | (some o, sleeps) =>
    (Outcome.alreadyRecorded,
     send_confirmation_email env.sendOk o none
       { (profileStep (normalize event.intent) db).2 with
         clock := (profileStep (normalize event.intent) db).2.clock + sleeps })
  | (none, sleeps) =>
    creationStep env (normalize event.intent) (profileStep (normalize event.intent) db).1
      { (profileStep (normalize event.intent) db).2 with
        clock := (profileStep (normalize event.intent) db).2.clock + sleeps }

/-! ### Frame lemmas for the individual steps -/

theorem profileStep_orders (n : Norm) (db : DB) : (profileStep n db).2.orders = db.orders := by
  unfold profileStep
  repeat' split
  all_goals rfl

theorem profileStep_lineItems (n : Norm) (db : DB) :
    (profileStep n db).2.lineItems = db.lineItems := by
  unfold profileStep
  repeat' split
  all_goals rfl

theorem profileStep_products (n : Norm) (db : DB) :
    (profileStep n db).2.products = db.products := by
  unfold profileStep
  repeat' split
  all_goals rfl

theorem profileStep_nextOrderId (n : Norm) (db : DB) :
    (profileStep n db).2.nextOrderId = db.nextOrderId := by
  unfold profileStep
  repeat' split
  all_goals rfl

theorem send_confirmation_email_orders (b : Bool) (o : Order) (e : Option String) (db : DB) :
    (send_confirmation_email b o e db).orders = db.orders := by
  unfold send_confirmation_email
  repeat' split
  all_goals rfl

theorem send_confirmation_email_lineItems (b : Bool) (o : Order) (e : Option String) (db : DB) :
    (send_confirmation_email b o e db).lineItems = db.lineItems := by
  unfold send_confirmation_email
  repeat' split
  all_goals rfl

theorem send_confirmation_email_profiles (b : Bool) (o : Order) (e : Option String) (db : DB) :
    (send_confirmation_email b o e db).profiles = db.profiles := by
  unfold send_confirmation_email
  repeat' split
  all_goals rfl

/-- Delivered emails of `_send_confirmation_email`: one new entry when
the recipient computation does not raise and rendering plus delivery
succeed, none otherwise. -/
theorem send_confirmation_email_sentEmails (b : Bool) (o : Order) (e : Option String) (db : DB) :
    (send_confirmation_email b o e db).sentEmails =
      db.sentEmails ++
        (match confirmationRecipient o e with
         | Except.ok addr => if b then [addr] else []
         | Except.error _ => []) := by
  unfold send_confirmation_email
  rcases confirmationRecipient o e with _ | addr
  · simp
  · rcases b with _ | _ <;> simp

theorem mkOrder_oid (n : Norm) (profile : Option UserProfile) (oid : Nat) :
    (mkOrder n profile oid).oid = oid := rfl

/-- If every attempt in the fuel window misses, the loop returns no
order and performs one sleep per attempt. -/
theorem findOrderLoop_all_miss (lateAt : Nat → List Order) (orders : List Order) (n : Norm) :
    ∀ fuel attempt,
      (∀ k, attempt ≤ k → k < attempt + fuel →
        (orders ++ lateAt k).find? (orderMatches n) = none) →
      findOrderLoop lateAt orders n attempt fuel = (none, fuel) := by
  intro fuel
  induction fuel with
  | zero => intro attempt _; rfl
  | succ f ih =>
    intro attempt h
    have h1 : (orders ++ lateAt attempt).find? (orderMatches n) = none :=
      h attempt (Nat.le_refl _) (by omega)
    unfold findOrderLoop
    rw [h1]
    simp [ih (attempt + 1) (fun k hk1 hk2 => h k (by omega) (by omega))]

/-- If the loop comes back empty then every attempt in the fuel window
missed. -/
theorem findOrderLoop_fst_none (lateAt : Nat → List Order) (orders : List Order) (n : Norm) :
    ∀ fuel attempt, (findOrderLoop lateAt orders n attempt fuel).1 = none →
      ∀ k, attempt ≤ k → k < attempt + fuel →
        (orders ++ lateAt k).find? (orderMatches n) = none := by
  intro fuel
  induction fuel with
  | zero => intro attempt _ k hk1 hk2; omega
  | succ f ih =>
    intro attempt h k hk1 hk2
    rcases hf : (orders ++ lateAt attempt).find? (orderMatches n) with _ | o
    · rcases Nat.eq_or_lt_of_le hk1 with heq | hlt
      · rw [← heq]; exact hf
      · unfold findOrderLoop at h
        rw [hf] at h
        exact ih (attempt + 1) (by simpa using h) k hlt (by omega)
    · unfold findOrderLoop at h
      rw [hf] at h
      simp at h

/-! ### Creation-path lemmas -/

theorem creationStep_ok (env : Env) (n : Norm) (profile : Option UserProfile) (db : DB)
    (lis : List OrderLineItem)
    (hco : env.createOrderOk = true)
    (hli : lineItemPhase env.lineItemOk db.products db.nextOrderId n.bag = Except.ok lis) :
    creationStep env n profile db =
      (Outcome.created,
       send_confirmation_email env.sendOk (mkOrder n profile db.nextOrderId) n.email_to_send
         { db with orders := db.orders ++ [mkOrder n profile db.nextOrderId]
                   nextOrderId := db.nextOrderId + 1
                   lineItems := db.lineItems ++ lis }) := by
  unfold creationStep
  simp only [hco, if_true]
  rw [hli]

/-- When every one of the five attempts misses, the handler takes the
creation path on the profile-updated store with the clock advanced by
the five sleeps. -/
theorem handle_all_miss (env : Env) (event : Event) (db : DB)
    (hmiss : ∀ k, 1 ≤ k → k ≤ 5 →
      (db.orders ++ env.lateAt k).find? (orderMatches (normalize event.intent)) = none) :
    handle_payment_intent_succeeded env event db =
      creationStep env (normalize event.intent) (profileStep (normalize event.intent) db).1
        { (profileStep (normalize event.intent) db).2 with
          clock := (profileStep (normalize event.intent) db).2.clock + 5 } := by
  have hloop : findOrderLoop env.lateAt (profileStep (normalize event.intent) db).2.orders
      (normalize event.intent) 1 5 = (none, 5) := by
    apply findOrderLoop_all_miss
    intro k hk1 hk2
    rw [profileStep_orders]
    exact hmiss k hk1 (by omega)
  unfold handle_payment_intent_succeeded
  rw [hloop]

/-! ### Concrete fixtures used by the witnesses -/

/-- Healthy environment: no concurrent writer, the store accepts all
writes, rendering and delivery succeed. -/
def wEnv : Env :=
  { lateAt := fun _ => [], createOrderOk := true, lineItemOk := fun _ => true, sendOk := true }

def wAddress : Address :=
  { line1 := some "1 Way", line2 := some "", city := some "Town", state := none
    postal_code := some "PC1", country := some "GB" }

def wShipping : ShippingDetails :=
  { name := some "Ann", phone := some "123", address := some wAddress }

def wIntent : Intent :=
  { id := some "pid1"
    metadata :=
      { bag := some "\x7b\"12\": 3\x7d", save_info := some "true"
        username := some "u", email := some "ovr@x.com" }
    charges := none
    billing_details := some { email := some "bill@x.com" }
    amount_received := 4999
    shipping := some wShipping }

def wProfile : UserProfile :=
  { username := "u", userEmail := "acct@x.com", default_phone_number := "old"
    default_country := "", default_postcode := "OLDPC", default_town_or_city := ""
    default_street_address1 := "", default_street_address2 := "old2", default_county := "oldc" }

def wDB : DB :=
  { orders := [], lineItems := [], profiles := [wProfile], products := ["12"]
    nextOrderId := 1, sentEmails := [], clock := 0 }

def wEvent : Event := { type := "payment_intent.succeeded", intent := wIntent }

/-- Stored order matching `wIntent` under the composite key, with
different letter case in the text fields. -/
def wOrder : Order :=
  { oid := 0, full_name := "ANN", user_profile := none, email := "BILL@X.COM"
    phone_number := "123", country := "gb", postcode := "pc1", town_or_city := "TOWN"
    street_address1 := "1 WAY", street_address2 := "", county := ""
    grand_total := mkRat 4999 100, original_bag := "\x7b\"12\": 3\x7d"
    stripe_pid := some "pid1" }

/-! ### Claim C1 -/

/-- Claim C1: for every payment-succeeded event whose composite key
(transaction id, serialized cart snapshot as received, computed grand
total, case-insensitively matched shipping/billing text fields)
matches a stored Order at any of the up-to-5 lookup attempts, the
handler returns the already-recorded outcome and the order store is
unchanged. -/
theorem C1_match_returns_already_recorded (env : Env) (event : Event) (db : DB)
    (h : ∃ k, 1 ≤ k ∧ k ≤ 5 ∧
      ∃ o ∈ db.orders ++ env.lateAt k, orderMatches (normalize event.intent) o = true) :
    (handle_payment_intent_succeeded env event db).1 = Outcome.alreadyRecorded ∧
    (handle_payment_intent_succeeded env event db).2.orders = db.orders := by
  obtain ⟨k, hk1, hk5, o, ho, hmatch⟩ := h
  have hne : (findOrderLoop env.lateAt (profileStep (normalize event.intent) db).2.orders
      (normalize event.intent) 1 5).1 ≠ none := by
    intro hnone
    have hall := findOrderLoop_fst_none env.lateAt
      (profileStep (normalize event.intent) db).2.orders (normalize event.intent)
      5 1 hnone k hk1 (by omega)
    rw [profileStep_orders] at hall
    rw [List.find?_eq_none] at hall
    exact hall o ho hmatch
  rcases hfr : findOrderLoop env.lateAt (profileStep (normalize event.intent) db).2.orders
      (normalize event.intent) 1 5 with ⟨fo, sleeps⟩
  rcases fo with _ | o2
  · rw [hfr] at hne; simp at hne
  · unfold handle_payment_intent_succeeded
    rw [hfr]
    exact ⟨rfl, by rw [send_confirmation_email_orders]; exact profileStep_orders _ _⟩

/-- Environment whose concurrent writer makes the matching order
visible only at the third lookup attempt. -/
def c1Env : Env := { wEnv with lateAt := fun k => if k = 3 then [wOrder] else [] }

/-- Witness for C1 at a concrete input: the match becomes visible at
attempt 3, the handler acknowledges it and creates nothing. -/
theorem C1_witness :
    (handle_payment_intent_succeeded c1Env wEvent wDB).1 = Outcome.alreadyRecorded ∧
    (handle_payment_intent_succeeded c1Env wEvent wDB).2.orders = wDB.orders :=
  C1_match_returns_already_recorded c1Env wEvent wDB
    ⟨3, by decide, by decide, wOrder, by decide, by decide⟩

/-! ### Claim C2 -/

theorem creationStep_profiles (env : Env) (n : Norm) (profile : Option UserProfile) (db : DB) :
    (creationStep env n profile db).2.profiles = db.profiles := by
  unfold creationStep
  split
  · split <;> simp [send_confirmation_email_profiles]
  · rfl

/-- The handler only touches the profile store in the profile step;
the lookup, creation and email phases preserve it. -/
theorem handle_profiles (env : Env) (event : Event) (db : DB) :
    (handle_payment_intent_succeeded env event db).2.profiles =
      (profileStep (normalize event.intent) db).2.profiles := by
  unfold handle_payment_intent_succeeded
  rcases hfr : findOrderLoop env.lateAt (profileStep (normalize event.intent) db).2.orders
      (normalize event.intent) 1 5 with ⟨fo, sleeps⟩
  rcases fo with _ | o
  · exact creationStep_profiles env (normalize event.intent)
      (profileStep (normalize event.intent) db).1
      ({ (profileStep (normalize event.intent) db).2 with
         clock := (profileStep (normalize event.intent) db).2.clock + sleeps })
  · exact send_confirmation_email_profiles env.sendOk o none
      ({ (profileStep (normalize event.intent) db).2 with
         clock := (profileStep (normalize event.intent) db).2.clock + sleeps })

/-- Claim C5: for every payment-succeeded event naming a known,
non-anonymous username with the opt-in flag set, the profile store of
the final state is the updated one, whatever the outcome — the update
runs before the order lookup, so it also happens on the
already-recorded and creation-failed paths (the statement quantifies
over every environment, hence over every outcome). -/
theorem C5_profile_updated_regardless_of_outcome (env : Env) (event : Event) (db : DB)
    (p : UserProfile)
    (hu : (normalize event.intent).username ≠ "AnonymousUser")
    (hs : (normalize event.intent).save_info = true)
    (hp : db.profiles.find? (fun q => q.username == (normalize event.intent).username) = some p) :
    (handle_payment_intent_succeeded env event db).2.profiles =
      db.profiles.map (fun q =>
        if q.username == (normalize event.intent).username
        then updateProfileFields (normalize event.intent) p else q) := by
  rw [handle_profiles]
  unfold profileStep
  rw [if_neg hu, hp, hs]
  simp

/-- Environment whose store rejects the order create, forcing the 500
outcome. -/
def c5Env : Env := { wEnv with createOrderOk := false }

/-- Witness for C5 at a concrete input: even though the outcome is the
creation failure, the profile has been updated. -/
theorem C5_witness :
    (handle_payment_intent_succeeded c5Env wEvent wDB).2.profiles =
      wDB.profiles.map (fun q =>
        if q.username == (normalize wEvent.intent).username
        then updateProfileFields (normalize wEvent.intent) wProfile else q) :=
  C5_profile_updated_regardless_of_outcome c5Env wEvent wDB wProfile
    (by decide) (by decide) (by decide)

/-! ### Claim C6 -/

theorem Env_mk_lateAt (la : Nat → List Order) (co : Bool) (liOk : OrderLineItem → Bool)
    (b : Bool) : (Env.mk la co liOk b).lateAt = la := rfl

theorem Env_mk_createOrderOk (la : Nat → List Order) (co : Bool) (liOk : OrderLineItem → Bool)
    (b : Bool) : (Env.mk la co liOk b).createOrderOk = co := rfl

theorem Env_mk_lineItemOk (la : Nat → List Order) (co : Bool) (liOk : OrderLineItem → Bool)
    (b : Bool) : (Env.mk la co liOk b).lineItemOk = liOk := rfl

/-- The outcome of the creation path never depends on whether the
notifier succeeds. -/
theorem creationStep_fst_ignores_sendOk (la : Nat → List Order) (co : Bool)
    (liOk : OrderLineItem → Bool) (b1 b2 : Bool) (n : Norm) (profile : Option UserProfile)
    (db : DB) :
    (creationStep ⟨la, co, liOk, b1⟩ n profile db).1 =
    (creationStep ⟨la, co, liOk, b2⟩ n profile db).1 := by
  cases co
  · rfl
  · unfold creationStep
    simp only [Env_mk_createOrderOk, Env_mk_lineItemOk, if_true]
    split <;> rfl

/-- Claim C6: a failing notifier (template rendering or delivery
error, modelled by the send flag) never changes the outcome: for any
two notifier behaviours the handler returns the same outcome on the
same event and store. -/
theorem C6_notifier_failure_preserves_outcome (la : Nat → List Order) (co : Bool)
    (liOk : OrderLineItem → Bool) (b1 b2 : Bool) (event : Event) (db : DB) :
    (handle_payment_intent_succeeded ⟨la, co, liOk, b1⟩ event db).1 =
    (handle_payment_intent_succeeded ⟨la, co, liOk, b2⟩ event db).1 := by
  unfold handle_payment_intent_succeeded
  simp only [Env_mk_lateAt]
  rcases hfr : findOrderLoop la (profileStep (normalize event.intent) db).2.orders
      (normalize event.intent) 1 5 with ⟨fo, sleeps⟩
  rcases fo with _ | o
  · exact creationStep_fst_ignores_sendOk la co liOk b1 b2 (normalize event.intent)
      (profileStep (normalize event.intent) db).1
      ({ (profileStep (normalize event.intent) db).2 with
         clock := (profileStep (normalize event.intent) db).2.clock + sleeps })
  · rfl

/-! ### Claim C7 -/

/-- A per-size map whose values are integers yields one line item per
pair, in iteration order, when the store accepts every write. -/
theorem sizeItems_map (ok : OrderLineItem → Bool) (oid : Nat) (item_id : String)
    (pairs : List (String × Int)) (hok : ∀ li, ok li = true) :
    sizeItems ok oid item_id (pairs.map (fun p => (p.1, Json.num p.2))) =
      Except.ok (pairs.map (fun p =>
        { order_id := oid, product_id := item_id, quantity := p.2
          product_size := some p.1 })) := by
  induction pairs with
  | nil => rfl
  | cons hd tl ih => simp [sizeItems, djangoIntOfJson, hok, ih]

/-- Claim C7: during order creation, a snapshot entry with a plain
integer value yields exactly one line item with that quantity and no
size, and an entry with a per-size integer mapping yields exactly one
line item per size/quantity pair. -/
theorem C7_snapshot_entry_shapes (ok : OrderLineItem → Bool) (products : List String)
    (oid : Nat) (item_id : String) (q : Int) (pairs : List (String × Int))
    (hprod : products.contains item_id = true)
    (hok : ∀ li, ok li = true) :
    lineItemsForEntry ok products oid item_id (Json.num q) =
      Except.ok [{ order_id := oid, product_id := item_id, quantity := q
                   product_size := none }] ∧
    lineItemsForEntry ok products oid item_id
      (Json.obj [(itemsBySizeKey, Json.obj (pairs.map (fun p => (p.1, Json.num p.2))))]) =
      Except.ok (pairs.map (fun p =>
        { order_id := oid, product_id := item_id, quantity := p.2
          product_size := some p.1 })) := by
  have hmem : item_id ∈ products := by simpa using hprod
  constructor
  · simp [lineItemsForEntry, hmem, hok]
  · simp [lineItemsForEntry, hmem, jsonGet, sizeItems_map ok oid item_id pairs hok]

/-- Witness for C7 at the inputs the specification itself names:
snapshot entries 12 to 3 and 12 to sizes M:2, L:1. -/
theorem C7_witness :
    lineItemsForEntry (fun _ => true) ["12"] 1 "12" (Json.num 3) =
      Except.ok [{ order_id := 1, product_id := "12", quantity := 3
                   product_size := none }] ∧
    lineItemsForEntry (fun _ => true) ["12"] 1 "12"
      (Json.obj [(itemsBySizeKey, Json.obj [("M", Json.num 2), ("L", Json.num 1)])]) =
      Except.ok [{ order_id := 1, product_id := "12", quantity := 2, product_size := some "M" },
                 { order_id := 1, product_id := "12", quantity := 1
                   product_size := some "L" }] :=
  C7_snapshot_entry_shapes (fun _ => true) ["12"] 1 "12" 3 [("M", 2), ("L", 1)]
    (by decide) (fun _ => rfl)

/-! ### Claim C8 -/

theorem pyOr_cases (o : Option String) (d : String) :
    ((o = none ∨ o = some "") → pyOr o d = d) ∧
    (∀ s, s ≠ "" → o = some s → pyOr o d = s) := by
  constructor
  · intro h
    rcases h with h | h <;> simp [h, pyOr]
  · intro s hs h
    rw [h]
    simp [pyOr, hs]

/-- Claim C8: the opt-in profile update overwrites exactly the default
address/contact fields for which the event carries a non-empty value
and keeps every field whose event value is absent or empty — in
particular an empty postcode leaves the stored postcode unchanged —
and it never touches the identity fields of the stored profile. -/
theorem C8_profile_update_frame (n : Norm) (p : UserProfile) :
    ((updateProfileFields n p).username = p.username) ∧
    ((updateProfileFields n p).userEmail = p.userEmail) ∧
    ((n.phone = none ∨ n.phone = some "") →
      (updateProfileFields n p).default_phone_number = p.default_phone_number) ∧
    (∀ s, s ≠ "" → n.phone = some s → (updateProfileFields n p).default_phone_number = s) ∧
    ((n.address.country = none ∨ n.address.country = some "") →
      (updateProfileFields n p).default_country = p.default_country) ∧
    (∀ s, s ≠ "" → n.address.country = some s →
      (updateProfileFields n p).default_country = s) ∧
    ((n.address.postal_code = none ∨ n.address.postal_code = some "") →
      (updateProfileFields n p).default_postcode = p.default_postcode) ∧
    (∀ s, s ≠ "" → n.address.postal_code = some s →
      (updateProfileFields n p).default_postcode = s) ∧
    ((n.address.city = none ∨ n.address.city = some "") →
      (updateProfileFields n p).default_town_or_city = p.default_town_or_city) ∧
    (∀ s, s ≠ "" → n.address.city = some s →
      (updateProfileFields n p).default_town_or_city = s) ∧
    ((n.address.line1 = none ∨ n.address.line1 = some "") →
      (updateProfileFields n p).default_street_address1 = p.default_street_address1) ∧
    (∀ s, s ≠ "" → n.address.line1 = some s →
      (updateProfileFields n p).default_street_address1 = s) ∧
    ((n.address.line2 = none ∨ n.address.line2 = some "") →
      (updateProfileFields n p).default_street_address2 = p.default_street_address2) ∧
    (∀ s, s ≠ "" → n.address.line2 = some s →
      (updateProfileFields n p).default_street_address2 = s) ∧
    ((n.address.state = none ∨ n.address.state = some "") →
      (updateProfileFields n p).default_county = p.default_county) ∧
    (∀ s, s ≠ "" → n.address.state = some s →
      (updateProfileFields n p).default_county = s) :=
  ⟨rfl, rfl,
   (pyOr_cases n.phone p.default_phone_number).1,
   (pyOr_cases n.phone p.default_phone_number).2,
   (pyOr_cases n.address.country p.default_country).1,
   (pyOr_cases n.address.country p.default_country).2,
   (pyOr_cases n.address.postal_code p.default_postcode).1,
   (pyOr_cases n.address.postal_code p.default_postcode).2,
   (pyOr_cases n.address.city p.default_town_or_city).1,
   (pyOr_cases n.address.city p.default_town_or_city).2,
   (pyOr_cases n.address.line1 p.default_street_address1).1,
   (pyOr_cases n.address.line1 p.default_street_address1).2,
   (pyOr_cases n.address.line2 p.default_street_address2).1,
   (pyOr_cases n.address.line2 p.default_street_address2).2,
   (pyOr_cases n.address.state p.default_county).1,
   (pyOr_cases n.address.state p.default_county).2⟩

/-- Intent whose shipping address carries an explicitly empty
postcode. -/
def c8Address : Address := { wAddress with postal_code := some "" }

def c8Intent : Intent :=
  { wIntent with shipping := some { wShipping with address := some c8Address } }

/-- Witness for C8 at a concrete input: the empty postcode leaves the
stored postcode unchanged while the non-empty city overwrites the
stored city. -/
theorem C8_witness :
    (updateProfileFields (normalize c8Intent) wProfile).default_postcode =
      wProfile.default_postcode ∧
    (updateProfileFields (normalize c8Intent) wProfile).default_town_or_city = "Town" :=
  ⟨(C8_profile_update_frame (normalize c8Intent) wProfile).2.2.2.2.2.2.1 (Or.inl rfl),
   (C8_profile_update_frame (normalize c8Intent) wProfile).2.2.2.2.2.2.2.2.2.1
     "Town" (by decide) rfl⟩

/-! ### Claim C9 -/

/-- Claim C10: a snapshot string that is not valid JSON is treated as
an empty snapshot — on the creation path the order is still created,
zero line items are stored, and the outcome is Created. -/
theorem C10_invalid_json_creates_empty (env : Env) (event : Event) (db : DB)
    (hmiss : ∀ k, 1 ≤ k → k ≤ 5 →
      (db.orders ++ env.lateAt k).find? (orderMatches (normalize event.intent)) = none)
    (hco : env.createOrderOk = true)
    (hparse : json_loads (normalize event.intent).bag = none) :
    (handle_payment_intent_succeeded env event db).1 = Outcome.created ∧
    (handle_payment_intent_succeeded env event db).2.orders =
      db.orders ++ [mkOrder (normalize event.intent)
        (profileStep (normalize event.intent) db).1 db.nextOrderId] ∧
    (handle_payment_intent_succeeded env event db).2.lineItems = db.lineItems := by
  have hli : lineItemPhase env.lineItemOk db.products db.nextOrderId
      (normalize event.intent).bag = Except.ok [] := by
    unfold lineItemPhase
    rw [hparse]
  rw [handle_all_miss env event db hmiss]
  have hli2 := hli
  rw [← profileStep_products (normalize event.intent) db,
      ← profileStep_nextOrderId (normalize event.intent) db] at hli2
  rw [creationStep_ok env (normalize event.intent) (profileStep (normalize event.intent) db).1
      ({ (profileStep (normalize event.intent) db).2 with
         clock := (profileStep (normalize event.intent) db).2.clock + 5 }) [] hco hli2]
  refine ⟨rfl, ?_, ?_⟩
  · rw [send_confirmation_email_orders]
    simp [profileStep_orders, profileStep_nextOrderId]
  · rw [send_confirmation_email_lineItems]
    simp [profileStep_lineItems]

/-- Event whose snapshot string is not valid JSON. -/
def c10Event : Event :=
  { type := "payment_intent.succeeded"
    intent :=
      { wIntent with
        metadata :=
          { bag := some "not json", save_info := none, username := none, email := none } } }

/-- Witness for C10 at a concrete input: the malformed snapshot still
yields a created order with no line items. -/
theorem C10_witness :
    (handle_payment_intent_succeeded wEnv c10Event wDB).1 = Outcome.created ∧
    (handle_payment_intent_succeeded wEnv c10Event wDB).2.orders =
      wDB.orders ++ [mkOrder (normalize c10Event.intent)
        (profileStep (normalize c10Event.intent) wDB).1 wDB.nextOrderId] ∧
    (handle_payment_intent_succeeded wEnv c10Event wDB).2.lineItems = wDB.lineItems :=
  C10_invalid_json_creates_empty wEnv c10Event wDB (fun _ _ _ => rfl) rfl rfl

end Checkout
